import Mathlib

/-!
Shallow embedding of the story controller of the thebestory repository
(`thebestory/app/controllers/api/stories.py`) together with the declared
columns of the users model (`tbs/models/user.py`), and proofs of the
specification claims about them.

Modelling conventions:
* database rows become Lean structures; the tables of a database become
  lists of rows inside a `DbState`;
* SQL machine integers become `Int`/`Nat` (no counter here is ever taken
  modulo a word size by the code);
* timestamps are abstract `Nat` ticks (`DbState.now` is the clock used for
  `datetime.utcnow()`); `isoformat()` renders a timestamp as a JSON number;
* the base-36 identifier codec is injective on ids, so JSON ids are
  rendered as the numeric id itself;
* Python code that can raise an uncaught exception is embedded in
  `Except String`, the error string naming the Python exception class.
-/

namespace TheBestory

/-- Minimal JSON value AST used for response bodies. -/
inductive JValue where
  | null
  | bool (b : Bool)
  | num (n : Int)
  | str (s : String)
  | arr (elems : List JValue)
  | obj (fields : List (String × JValue))

/-- Modelled from the spec: the envelope builders of
`thebestory/app/lib/api/response.py` are not under `src/`; per the spec the
envelope is `\x7bstatus: "ok"|"warning"|"error", code?, data\x7d`. `ok` wraps a
success payload. -/
def ok (data : JValue) : JValue :=
  .obj [("status", .str "ok"), ("data", data)]

/-- Modelled from the spec: `warning` wraps a payload together with an
application code as a success-with-caveat envelope. -/
def warning (code : Int) (data : JValue) : JValue :=
  .obj [("status", .str "warning"), ("code", .num code), ("data", data)]

/-- Modelled from the spec: `error` wraps an application error code. -/
def error (code : Int) : JValue :=
  .obj [("status", .str "error"), ("code", .num code)]

/-- A JSON value is an envelope iff it is an object whose first field is a
`status` string equal to `ok`, `warning` or `error` (the uniform envelope
shape of the spec). -/
def isEnveloped (v : JValue) : Bool :=
  match v with
  | .obj (("status", .str s) :: _) => s == "ok" || s == "warning" || s == "error"
  | _ => false

/-- An HTTP response: status code and JSON body. -/
structure Response where
  status : Nat
  body : JValue

/-- A row of the `stories` table, per the columns the controller reads and
writes. -/
structure Story where
  id : Nat
  topic_id : Nat
  author_id : Nat
  content : String
  likes_count : Int
  comments_count : Int
  is_approved : Bool
  is_removed : Bool
  submitted_date : Nat
  published_date : Option Nat
  deriving Repr, DecidableEq

/-- A row of the `topics` table, per the columns the controller reads and
writes. -/
structure Topic where
  id : Nat
  slug : String
  title : String
  description : String
  icon : String
  stories_count : Int
  deriving Repr, DecidableEq

/-- Modelled from the spec: the `users` table of `thebestory.app.models` is
not under `src/`. This structure models the duck-typed row with exactly the
columns the controller touches: `stories_count` (submission counter) and
`likes_count` (the column named by §4.7 of the spec and by the controller's
update at lines 487-490). The columns declared by the users model that IS
under `src/` (`tbs/models/user.py`) are recorded separately in
`tbsUsersColumns`. -/
structure User where
  id : Nat
  stories_count : Int
  likes_count : Int
  deriving Repr, DecidableEq

/-- A fetched comment row (the join of `comments` with the author's
username, as selected by the comments handler), in fetched order. -/
structure CommentRow where
  id : Nat
  parent_id : Option Nat
  author_id : Nat
  author_username : String
  content : String
  likes_count : Int
  comments_count : Int
  submitted_date : Nat
  edited_date : Option Nat
  deriving Repr, DecidableEq

/-- A row of the `story_likes` table: an append-only like/unlike event. -/
structure LikeEvent where
  user_id : Nat
  story_id : Nat
  state : Bool
  timestamp : Nat
  deriving Repr, DecidableEq

/-- The database state visible to the controller, plus the UTC clock and
the id sequence of the stories table. -/
structure DbState where
  stories : List Story
  topics : List Topic
  users : List User
  story_likes : List LikeEvent
  now : Nat
  nextStoryId : Nat
  deriving Repr, DecidableEq

/-- The declared columns of the users table in `src/tbs/models/user.py`. -/
def tbsUsersColumns : List String :=
  ["id", "username", "stories_count", "comments_count",
   "story_likes_count", "comment_likes_count"]

/-- The users column targeted by the like handler's counter update
(`values(likes_count=users.c.likes_count + diff)`, stories.py lines
487-490). -/
def likeUserUpdateColumn : String := "likes_count"

/-- ANONYMOUS_USER_ID constant (stories.py line 19). -/
def ANONYMOUS_USER_ID : Nat := 5

/-- SELECT of a story row by id (`fetchrow` of a unique-key select). -/
def findStory (db : DbState) (id : Nat) : Option Story :=
  db.stories.find? (fun s => s.id == id)

/-- SELECT of a topic row by id. -/
def findTopic (db : DbState) (id : Nat) : Option Topic :=
  db.topics.find? (fun t => t.id == id)

/-- SELECT of a user row by id. -/
def findUser (db : DbState) (id : Nat) : Option User :=
  db.users.find? (fun u => u.id == id)

/-- The story's likes counter as the detail/like handlers would read it. -/
def storyLikes (db : DbState) (id : Nat) : Option Int :=
  (findStory db id).map Story.likes_count

/-- The topic's stories counter. -/
def topicStories (db : DbState) (id : Nat) : Option Int :=
  (findTopic db id).map Topic.stories_count

/-- The user's stories counter. -/
def userStories (db : DbState) (id : Nat) : Option Int :=
  (findUser db id).map User.stories_count

/-- The user's likes counter (the `likes_count` column the controller
updates). -/
def userLikes (db : DbState) (id : Nat) : Option Int :=
  (findUser db id).map User.likes_count

/-- The story payload of the details handler (stories.py lines 60-75),
including the degraded topic stub when the topic row is missing. Requires
the already-unwrapped `published_date` (the code calls `.isoformat()` on it
without a null guard). -/
def detailsData (story : Story) (topic : Option Topic) (pd : Nat) : JValue :=
  .obj [
    ("id", .num story.id),
    ("topic",
      match topic with
      | none => .obj [("id", .num story.topic_id)]
      | some t => .obj [
          ("id", .num t.id), ("slug", .str t.slug), ("title", .str t.title),
          ("description", .str t.description), ("icon", .str t.icon),
          ("stories_count", .num t.stories_count)]),
    ("content", .str story.content),
    ("likes_count", .num story.likes_count),
    ("comments_count", .num story.comments_count),
    ("published_date", .num pd)]

/-- StoriesController.details (stories.py lines 29-81), after the id has
been decoded. Missing or removed story: 404 with code 2003; not approved:
403 with code 4001; otherwise the topic is joined and the payload is
wrapped in `ok`, or in `warning 2002` when the topic row is missing.
`published_date.isoformat()` on a null date raises AttributeError. -/
def details (db : DbState) (id : Nat) : Except String Response :=
  match findStory db id with
  | none => .ok ⟨404, error 2003⟩
  | some story =>
    if story.is_removed then .ok ⟨404, error 2003⟩
    else if !story.is_approved then .ok ⟨403, error 4001⟩
    else
      let topic := findTopic db story.topic_id
      match story.published_date with
      | none => .error "AttributeError"
      | some pd =>
        .ok ⟨200,
          if topic.isSome then ok (detailsData story topic pd)
          else warning 2002 (detailsData story topic pd)⟩

/-- Lookup in the children table (the `comments` list of the entry keyed by
an id in the handler's OrderedDict). -/
def lookupChildren : List (Nat × List Nat) → Nat → Option (List Nat)
  | [], _ => none
  | (k, v) :: rest, a => if a = k then some v else lookupChildren rest a

/-- Mutation step `data[p]["comments"].append(c)` of the second pass: every
entry keyed `p` gets `c` appended to its child list. -/
def appendChild : List (Nat × List Nat) → Nat → Nat → List (Nat × List Nat)
  | [], _, _ => []
  | (k, v) :: rest, p, c =>
    (if k = p then (k, v ++ [c]) else (k, v)) :: appendChild rest p c

/-- Second pass of the comments handler (stories.py lines 159-161): iterate
the fetched rows in order; a row with a parent is appended to the parent's
child list, and `data[parent_id]` raises KeyError when the parent id is not
among the fetched ids. -/
def attachAll (ids : List Nat) : List CommentRow → List (Nat × List Nat) →
    Except String (List (Nat × List Nat))
  | [], acc => .ok acc
  | r :: rs, acc =>
    match r.parent_id with
    | none => attachAll ids rs acc
    | some p =>
      if p ∈ ids then attachAll ids rs (appendChild acc p r.id)
      else .error "KeyError"

/-- Both passes of the comment-tree reconstruction (stories.py lines
136-167): the OrderedDict keyed by id with empty child lists, then the
attachment pass, then the root filter. Returns the root ids (rows whose
parent is null, in fetched order) and the children table. -/
def commentsTree (rows : List CommentRow) :
    Except String (List Nat × List (Nat × List Nat)) :=
  match attachAll (rows.map (fun r => r.id)) rows (rows.map (fun r => (r.id, []))) with
  | .error e => .error e
  | .ok m => .ok ((rows.filter (fun r => r.parent_id == none)).map (fun r => r.id), m)

/-- Rendering of a list of comment entries to JSON, recursing into each
entry's child list. The fuel bounds the nesting depth (the Python
structure is rendered by `json.dumps` through shared references). -/
def renderComments (rows : List CommentRow) (m : List (Nat × List Nat)) :
    Nat → List Nat → List JValue
  | _, [] => []
  | 0, _ :: _ => []
  | fuel + 1, cid :: rest =>
    (match rows.find? (fun r => r.id == cid) with
     | none => JValue.null
     | some r =>
       JValue.obj [
         ("id", .num r.id),
         ("parent",
           match r.parent_id with
           | none => JValue.null
           | some p => .obj [("id", .num p)]),
         ("author", .obj [("id", .num r.author_id),
                          ("username", .str r.author_username)]),
         ("content", .str r.content),
         ("comments", .arr (renderComments rows m fuel ((lookupChildren m cid).getD []))),
         ("likes_count", .num r.likes_count),
         ("comments_count", .num r.comments_count),
         ("submitted_date", .num r.submitted_date),
         ("edited_date",
           match r.edited_date with
           | none => JValue.null
           | some d => .num d)]) :: renderComments rows m (fuel + 1) rest
  termination_by fuel cs => (fuel, cs)

/-- StoriesController.comments (stories.py lines 95-167), after the id has
been decoded; `rows` is the fetched comment set for the story (already in
the like-count-descending order produced by the SELECT). Gate: missing or
removed story is 404/2003, unapproved is 403/4001; then the tree is built
and the root comments are returned wrapped in `ok`. -/
def comments (db : DbState) (id : Nat) (rows : List CommentRow) :
    Except String Response :=
  match findStory db id with
  | none => .ok ⟨404, error 2003⟩
  | some story =>
    if story.is_removed then .ok ⟨404, error 2003⟩
    else if !story.is_approved then .ok ⟨403, error 4001⟩
    else
      match commentsTree rows with
      | .error e => .error e
      | .ok (roots, m) =>
        .ok ⟨200, ok (.arr (renderComments rows m rows.length roots))⟩

/-- Modelled from the spec: pagination direction enum of
`thebestory/app/lib/listing.py` (not under `src/`), §4.2 of the spec. -/
inductive Direction where
  | BEFORE
  | AFTER
  deriving Repr, DecidableEq

/-- Modelled from the spec: limit validation of the listing validator
(`Listing(1, 100, 25)`, stories.py line 27): absent defaults to 25, a
present value must lie in `[1, 100]`. -/
def validateLimit (limit : Option Nat) : Except Unit Nat :=
  match limit with
  | none => .ok 25
  | some l => if 1 ≤ l ∧ l ≤ 100 then .ok l else .error ()

/-- Modelled from the spec: `Listing.validate` over already-decoded
parameters (§4.2): both cursors present fails; `before` yields direction
BEFORE, `after` yields AFTER; neither yields no pivot (the direction is
then irrelevant to the query; BEFORE is used as the default here). -/
def validateListing (before after limit : Option Nat) :
    Except Unit (Option Nat × Nat × Direction) :=
  match before, after with
  | some _, some _ => .error ()
  | some b, none => (validateLimit limit).map (fun l => (some b, l, Direction.BEFORE))
  | none, some a => (validateLimit limit).map (fun l => (some a, l, Direction.AFTER))
  | none, none => (validateLimit limit).map (fun l => (none, l, Direction.BEFORE))

/-- Insertion step of the sort modelling the SQL ORDER BY. -/
def insertLe {α : Type} (le : α → α → Bool) (a : α) : List α → List α
  | [] => [a]
  | b :: bs => if le a b then a :: b :: bs else b :: insertLe le a bs

/-- Insertion sort modelling the SQL ORDER BY of the feed queries
(kernel-computable, unlike well-founded merge sort). -/
def sortLe {α : Type} (le : α → α → Bool) : List α → List α
  | [] => []
  | a :: as => insertLe le a (sortLe le as)

/-- WHERE clause of the latest/top feed queries: the two visibility
filters, plus the pivot comparator added when a pivot is present
(stories.py lines 196-206 and 260-270): direction BEFORE adds
`id > pivot`, AFTER adds `id < pivot`. -/
def feedWhere (pivot : Option Nat) (direction : Direction) (s : Story) : Bool :=
  s.is_approved && !s.is_removed &&
    match pivot with
    | none => true
    | some p =>
      match direction with
      | Direction.BEFORE => decide (s.id > p)
      | Direction.AFTER => decide (s.id < p)

/-- Row set of the latest query (stories.py lines 187-206): visible rows
with the pivot filter, ordered by published date descending, limited. -/
def latestQuery (db : DbState) (pivot : Option Nat) (direction : Direction)
    (limit : Nat) : List Story :=
  (sortLe (fun a b => b.published_date.getD 0 ≤ a.published_date.getD 0)
    (db.stories.filter (feedWhere pivot direction))).take limit

/-- Row set of the top query (stories.py lines 251-270): same filters,
ordered by likes count descending. -/
def topQuery (db : DbState) (pivot : Option Nat) (direction : Direction)
    (limit : Nat) : List Story :=
  (sortLe (fun a b => decide (b.likes_count ≤ a.likes_count))
    (db.stories.filter (feedWhere pivot direction))).take limit

/-- List-item projection of a story row in the feed handlers (stories.py
lines 210-220): `published_date.isoformat()` raises AttributeError on a
null date. -/
def storyListItem (s : Story) : Except String JValue :=
  match s.published_date with
  | none => .error "AttributeError"
  | some pd =>
    .ok (.obj [
      ("id", .num s.id),
      ("topic", .obj [("id", .num s.topic_id)]),
      ("content", .str s.content),
      ("likes_count", .num s.likes_count),
      ("comments_count", .num s.comments_count),
      ("published_date", .num pd)])

/-- The data-building loop of the feed handlers: projects each row in
order, stopping at the first row that raises. -/
def buildStoryList : List Story → Except String (List JValue)
  | [] => .ok []
  | s :: rest =>
    match storyListItem s with
    | .error e => .error e
    | .ok j => (buildStoryList rest).map (fun js => j :: js)

/-- StoriesController.latest (stories.py lines 169-225), after parameter
validation: the response wraps the projected rows in `ok`. -/
def latest (db : DbState) (pivot : Option Nat) (direction : Direction)
    (limit : Nat) : Except String Response :=
  match buildStoryList (latestQuery db pivot direction limit) with
  | .error e => .error e
  | .ok js => .ok ⟨200, ok (.arr js)⟩

/-- StoriesController.top (stories.py lines 233-289), after parameter
validation: the response wraps the projected rows in `ok`. -/
def top (db : DbState) (pivot : Option Nat) (direction : Direction)
    (limit : Nat) : Except String Response :=
  match buildStoryList (topQuery db pivot direction limit) with
  | .error e => .error e
  | .ok js => .ok ⟨200, ok (.arr js)⟩

/-- StoriesController.random (stories.py lines 291-337), after limit
validation. The nondeterministic `ORDER BY random()` is abstracted as the
stored row order (no claim depends on the sample's order). Line 337 dumps
the bare row list: the body is the JSON array itself, with no envelope. -/
def random (db : DbState) (limit : Nat) : Except String Response :=
  match buildStoryList ((db.stories.filter
      (fun s => s.is_approved && !s.is_removed)).take limit) with
  | .error e => .error e
  | .ok js => .ok ⟨200, .arr js⟩

/-- Response payload of a successful submission (stories.py lines
417-433); `topic` is the row fetched before the transaction, so its
`stories_count` is the pre-increment value, and `published_date` is the
literal null. -/
def submitData (story : Story) (topic : Topic) : JValue :=
  .obj [
    ("id", .num story.id),
    ("topic", .obj [
      ("id", .num topic.id), ("slug", .str topic.slug),
      ("title", .str topic.title), ("description", .str topic.description),
      ("icon", .str topic.icon), ("stories_count", .num topic.stories_count)]),
    ("content", .str story.content),
    ("likes_count", .num story.likes_count),
    ("comments_count", .num story.comments_count),
    ("submitted_date", .num story.submitted_date),
    ("published_date", .null)]

/-- The write transaction of the submission handler (stories.py lines
381-403): insert the story row with zeroed counters and unset flags;
increment the topic's `stories_count`; then run
`UPDATE users SET stories_count = topics.stories_count + 1 WHERE users.id
= 5` — note the right-hand side reads the TOPICS counter column (the
code's `values(stories_count=topics.c.stories_count + 1)`), a cross-table
reference. SQL leaves the referenced topics row unspecified when several
exist; it is modelled as the first row of the already-updated topics
table (every choice coincides on a single-topic database, which the
failing input below uses). With no topics row the cross join is empty and
no user row is updated. -/
def submitTransaction (db : DbState) (topic : Topic) (content : String) :
    DbState × Nat :=
  let sid := db.nextStoryId
  let newStory : Story :=
    ⟨sid, topic.id, ANONYMOUS_USER_ID, content, 0, 0, false, false, db.now, none⟩
  let topics' := db.topics.map (fun t =>
    if t.id == topic.id then { t with stories_count := t.stories_count + 1 } else t)
  let users' :=
    match topics'.head? with
    | none => db.users
    | some tref => db.users.map (fun u =>
        if u.id == ANONYMOUS_USER_ID then
          { u with stories_count := tref.stories_count + 1 }
        else u)
  (⟨db.stories ++ [newStory], topics', users', db.story_likes,
    db.now + 1, db.nextStoryId + 1⟩, sid)

/-- StoriesController.submit (stories.py lines 340-443). The body is
`none` when parsing raised (malformed JSON); otherwise the pair holds the
parsed `topic` field (`none` when missing or not an integer) and the
`content` field (`none` when missing). Validation order: malformed body →
2002; empty content → 5004; over-length content → 5006; unknown topic →
2002; each is a 400 and leaves the database untouched. On success the
transaction runs and the inserted row is re-read. -/
def submit (maxContentLen : Nat) (db : DbState)
    (body : Option (Option Nat × Option String)) : Response × DbState :=
  match body with
  | none => (⟨400, error 2002⟩, db)
  | some (topicRaw, contentRaw) =>
    match topicRaw, contentRaw with
    | none, _ => (⟨400, error 2002⟩, db)
    | some _, none => (⟨400, error 2002⟩, db)
    | some topic_id, some content =>
      if content.length ≤ 0 then (⟨400, error 5004⟩, db)
      else if content.length > maxContentLen then (⟨400, error 5006⟩, db)
      else
        match findTopic db topic_id with
        | none => (⟨400, error 2002⟩, db)
        | some topic =>
          let res := submitTransaction db topic content
          match findStory res.1 res.2 with
          | none => (⟨500, error 1004⟩, res.1)
          | some story => (⟨201, ok (submitData story topic)⟩, res.1)

/-- The most recent like event for a user/story pair: the SELECT ordered
by timestamp descending, `fetchrow` taking the first row (stories.py lines
467-471). Modelled as the maximum-timestamp event among the matching
rows. -/
def latestLike (likes : List LikeEvent) (uid sid : Nat) : Option LikeEvent :=
  (likes.filter (fun e => e.user_id == uid && e.story_id == sid)).foldl
    (fun acc e =>
      match acc with
      | none => some e
      | some a => if a.timestamp < e.timestamp then some e else some a)
    none

/-- Like-state payload echoed by the like handler (stories.py lines
508-513). -/
def likeData (e : LikeEvent) : JValue :=
  .obj [
    ("user_id", .num e.user_id),
    ("story_id", .num e.story_id),
    ("state", .bool e.state),
    ("timestamp", .num e.timestamp)]

/-- The write branch of the like handler (stories.py lines 474-503):
append one event with the requested state, adjust `stories.likes_count`
and the users `likes_count` column by `diff` in one transaction, then
re-read the latest event and echo it (500 with code 1006 if the re-read
finds nothing). -/
def likeWrite (db : DbState) (story : Story) (state : Bool) (diff : Int) :
    Response × DbState :=
  let ev : LikeEvent := ⟨ANONYMOUS_USER_ID, story.id, state, db.now⟩
  let db' : DbState :=
    ⟨db.stories.map (fun s =>
        if s.id == story.id then { s with likes_count := s.likes_count + diff } else s),
     db.topics,
     db.users.map (fun u =>
        if u.id == ANONYMOUS_USER_ID then { u with likes_count := u.likes_count + diff } else u),
     ev :: db.story_likes,
     db.now + 1, db.nextStoryId⟩
  match latestLike db'.story_likes ANONYMOUS_USER_ID story.id with
  | none => (⟨500, error 1006⟩, db')
  | some lk => (⟨201, ok (likeData lk)⟩, db')

/-- StoriesController._like (stories.py lines 445-513), after the id has
been decoded. A story that is missing, removed or unapproved is 404/2003.
If no prior event exists or the latest event's state differs from the
requested state, the write branch runs; otherwise the current state is
re-reported with no write. -/
def likeAction (db : DbState) (sid : Nat) (state : Bool) : Response × DbState :=
  let diff : Int := if state then 1 else -1
  match findStory db sid with
  | none => (⟨404, error 2003⟩, db)
  | some story =>
    if story.is_removed || !story.is_approved then (⟨404, error 2003⟩, db)
    else
      match latestLike db.story_likes ANONYMOUS_USER_ID story.id with
      | none => likeWrite db story state diff
      | some lk =>
        if lk.state == state then (⟨201, ok (likeData lk)⟩, db)
        else likeWrite db story state diff

/-! Concrete rows and database states used by the closed evaluations. -/

/-- Example topic row with a zero story counter. -/
def topicEx : Topic := ⟨1, "travel", "Travel", "Travel stories", "icon", 0⟩

/-- Example anonymous user row with 10 submitted stories. -/
def anonUserEx : User := ⟨5, 10, 0⟩

/-- Example database for the submission evaluation. -/
def submitDbEx : DbState := ⟨[], [topicEx], [anonUserEx], [], 0, 1⟩

/-- Example approved, non-removed story. -/
def storyEx : Story := ⟨1, 1, 5, "story text", 0, 0, true, false, 0, some 3⟩

/-- Example removed story. -/
def removedStoryEx : Story := ⟨2, 1, 5, "gone", 0, 0, true, true, 0, some 3⟩

/-- Example not-yet-approved story. -/
def pendingStoryEx : Story := ⟨3, 1, 5, "pending", 0, 0, false, false, 0, none⟩

/-- Example approved story with a null published date. -/
def noDateStoryEx : Story := ⟨4, 1, 5, "nodate", 0, 0, true, false, 0, none⟩

/-- Example database holding one visible story and the anonymous user. -/
def visibleDbEx : DbState := ⟨[storyEx], [topicEx], [⟨5, 0, 0⟩], [], 0, 2⟩

/-- Example database holding one removed story. -/
def removedDbEx : DbState := ⟨[removedStoryEx], [], [], [], 0, 3⟩

/-- Example database holding one unapproved story. -/
def pendingDbEx : DbState := ⟨[pendingStoryEx], [], [], [], 0, 4⟩

/-- Example database holding one approved story with a null published
date. -/
def noDateDbEx : DbState := ⟨[noDateStoryEx], [], [], [], 0, 5⟩

/-- Example empty database. -/
def emptyDbEx : DbState := ⟨[], [], [], [], 0, 1⟩

/-- Example fetched comment whose declared parent (id 99) is not in the
fetched set. -/
def orphanRowEx : CommentRow := ⟨7, some 99, 5, "anonymous", "hi", 0, 0, 0, none⟩

/-- Example root comment. -/
def rootRowEx : CommentRow := ⟨1, none, 5, "anonymous", "root", 5, 2, 0, none⟩

/-- Example child comment of `rootRowEx` with the higher like count. -/
def childRowEx : CommentRow := ⟨2, some 1, 5, "anonymous", "child a", 3, 0, 1, none⟩

/-- Example child comment of `rootRowEx` with the lower like count. -/
def childRowEx2 : CommentRow := ⟨3, some 1, 5, "anonymous", "child b", 1, 0, 2, none⟩

/-- Example visible story for the feed-query evaluations. -/
def feedStoryEx : Story := ⟨7, 1, 5, "feed", 0, 0, true, false, 0, some 1⟩

/-- Example database holding one visible story with id 7. -/
def feedDbEx : DbState := ⟨[feedStoryEx], [], [], [], 0, 8⟩

/-- Example fetched comment set: one root and its two children, in
like-count-descending order. -/
def c9RowsEx : List CommentRow := [rootRowEx, childRowEx, childRowEx2]

/-! Helper lemmas. -/

/-- An envelope produced by `ok` satisfies `isEnveloped`. -/
@[simp] theorem isEnveloped_ok (d : JValue) : isEnveloped (ok d) = true := rfl

/-- An envelope produced by `warning` satisfies `isEnveloped`. -/
@[simp] theorem isEnveloped_warning (c : Int) (d : JValue) :
    isEnveloped (warning c d) = true := rfl

/-- An envelope produced by `error` satisfies `isEnveloped`. -/
@[simp] theorem isEnveloped_error (c : Int) : isEnveloped (error c) = true := rfl

/-- A bare JSON array is not an envelope. -/
@[simp] theorem isEnveloped_arr (xs : List JValue) :
    isEnveloped (.arr xs) = false := rfl

/-- Membership is preserved by the insertion step of the sort. -/
theorem mem_insertLe {α : Type} (le : α → α → Bool) (a x : α) :
    ∀ l : List α, x ∈ insertLe le a l ↔ x = a ∨ x ∈ l
  | [] => by simp [insertLe]
  | b :: bs => by
    by_cases h : le a b
    · simp [insertLe, h]
    · simp [insertLe, h, mem_insertLe le a x bs]
      tauto

/-- Membership is preserved by the sort modelling ORDER BY. -/
theorem mem_sortLe {α : Type} (le : α → α → Bool) (x : α) :
    ∀ l : List α, x ∈ sortLe le l ↔ x ∈ l
  | [] => Iff.rfl
  | a :: as => by
    simp [sortLe, mem_insertLe, mem_sortLe le x as]

/-- A found story has the id it was looked up by. -/
theorem findStory_id {db : DbState} {id : Nat} {s : Story}
    (h : findStory db id = some s) : s.id = id := by
  have := List.find?_some h
  simpa using this

/-- Updating every row whose key matches `k` commutes with looking up the
row keyed `k`. -/
theorem find?_map_update {α : Type} (key : α → Nat) (g : α → α)
    (hg : ∀ a, key (g a) = key a) (k : Nat) :
    ∀ l : List α,
      (l.map (fun a => if key a == k then g a else a)).find? (fun a => key a == k) =
        (l.find? (fun a => key a == k)).map g
  | [] => rfl
  | a :: as => by
    by_cases h : key a = k
    · rw [List.map_cons, if_pos (by simpa using h),
        List.find?_cons_of_pos _ (by simpa [hg] using h),
        List.find?_cons_of_pos _ (by simpa using h)]
      rfl
    · rw [List.map_cons, if_neg (by simpa using h),
        List.find?_cons_of_neg _ (by simpa using h),
        List.find?_cons_of_neg _ (by simpa using h),
        find?_map_update key g hg k as]

/-! Claim theorems. -/

/-- C1: within the submission transaction the topic's counter is indeed
incremented by 1, but the anonymous user's `stories_count` is NOT set to
one more than its own previous value: the code's
`values(stories_count=topics.c.stories_count + 1)` reads the topics
counter, so on a database where the anonymous user has 10 stories and the
topic has 0, a successful submission (status 201) leaves the user's
counter at 2, not 11. -/
theorem c1_submit_user_counter_slip :
    (submit 100 submitDbEx (some (some 1, some "hello"))).1.status = 201 ∧
    topicStories (submit 100 submitDbEx (some (some 1, some "hello"))).2 1 = some 1 ∧
    userStories submitDbEx 5 = some 10 ∧
    userStories (submit 100 submitDbEx (some (some 1, some "hello"))).2 5 = some 2 ∧
    (2 : Int) ≠ 10 + 1 :=
  ⟨rfl, rfl, rfl, rfl, by decide⟩

/-- C2 counterexample: on a visible story whose single fetched comment
declares an absent parent (id 99), the comments handler does not return a
200 response with the orphan dropped: the second pass raises KeyError. -/
theorem c2_counterexample :
    comments visibleDbEx 1 [orphanRowEx] = Except.error "KeyError" := rfl

/-- C3 counterexample: the users column the like handler adjusts is named
`likes_count`, which is not the `story_likes_count` counter declared by
the users model in `src/tbs/models/user.py` (indeed it is not a declared
column of that table at all). -/
theorem c3_counterexample :
    likeUserUpdateColumn = "likes_count" ∧
    likeUserUpdateColumn ∉ tbsUsersColumns ∧
    likeUserUpdateColumn ≠ "story_likes_count" := by
  refine ⟨rfl, by decide, by decide⟩

/-- C4 counterexample: the random listing's success response is the bare
JSON array, not the uniform envelope (stories.py line 337 dumps `data`
directly). -/
theorem c4_counterexample :
    random emptyDbEx 25 = .ok ⟨200, .arr []⟩ ∧
    isEnveloped (.arr []) = false :=
  ⟨rfl, rfl⟩

/-- C5: for every story id, both the detail and the comments endpoints
answer 404 with code 2003 when the story is missing or removed (regardless
of approval), and 403 with code 4001 when the story exists, is not
removed, and is not approved. -/
theorem c5_visibility (db : DbState) (id : Nat) (rows : List CommentRow) :
    (findStory db id = none →
      details db id = .ok ⟨404, error 2003⟩ ∧
      comments db id rows = .ok ⟨404, error 2003⟩) ∧
    (∀ s, findStory db id = some s → s.is_removed = true →
      details db id = .ok ⟨404, error 2003⟩ ∧
      comments db id rows = .ok ⟨404, error 2003⟩) ∧
    (∀ s, findStory db id = some s → s.is_removed = false →
      s.is_approved = false →
      details db id = .ok ⟨403, error 4001⟩ ∧
      comments db id rows = .ok ⟨403, error 4001⟩) := by
  refine ⟨fun h => ?_, fun s h hrem => ?_, fun s h hrem happ => ?_⟩
  · constructor <;> simp [details, comments, h]
  · constructor <;> simp [details, comments, h, hrem]
  · constructor <;> simp [details, comments, h, hrem, happ]

/-- C5 witness: the empty database, a removed story and an unapproved
story exercise all three branches of `c5_visibility`. -/
theorem c5_visibility_witness :
    (details emptyDbEx 1 = .ok ⟨404, error 2003⟩ ∧
      comments emptyDbEx 1 [] = .ok ⟨404, error 2003⟩) ∧
    (details removedDbEx 2 = .ok ⟨404, error 2003⟩ ∧
      comments removedDbEx 2 [] = .ok ⟨404, error 2003⟩) ∧
    (details pendingDbEx 3 = .ok ⟨403, error 4001⟩ ∧
      comments pendingDbEx 3 [] = .ok ⟨403, error 4001⟩) :=
  ⟨(c5_visibility emptyDbEx 1 []).1 rfl,
   (c5_visibility removedDbEx 2 []).2.1 removedStoryEx rfl rfl,
   (c5_visibility pendingDbEx 3 []).2.2 pendingStoryEx rfl rfl rfl⟩

/-- C8: submission validation order and outcomes: malformed body and
missing or non-integer fields yield 400 with code 2002; empty content
yields 400 with code 5004 (regardless of the topic); over-length content
yields 400 with code 5006; an unknown topic id yields 400 with code 2002;
every failure leaves the database unchanged. -/
theorem c8_submit_validation (maxLen : Nat) (db : DbState)
    (contentRaw : Option String) (tid : Nat) (content : String) :
    (submit maxLen db none = (⟨400, error 2002⟩, db)) ∧
    (submit maxLen db (some (none, contentRaw)) = (⟨400, error 2002⟩, db)) ∧
    (submit maxLen db (some (some tid, none)) = (⟨400, error 2002⟩, db)) ∧
    (content.length = 0 →
      submit maxLen db (some (some tid, some content)) = (⟨400, error 5004⟩, db)) ∧
    (content.length > maxLen →
      submit maxLen db (some (some tid, some content)) = (⟨400, error 5006⟩, db)) ∧
    (0 < content.length → content.length ≤ maxLen → findTopic db tid = none →
      submit maxLen db (some (some tid, some content)) = (⟨400, error 2002⟩, db)) := by
  refine ⟨rfl, rfl, rfl, fun h => ?_, fun h => ?_, fun h1 h2 h3 => ?_⟩
  · simp [submit, h]
  · have h0 : ¬content.length ≤ 0 := by omega
    simp [submit, h0, h]
  · have h0 : ¬content.length ≤ 0 := by omega
    have h4 : ¬content.length > maxLen := by omega
    simp [submit, h0, h4, h3]

/-- C8 witness: concrete instances of the three hypothesis-bearing cases,
on the example database (whose only topic has id 1, so id 42 is
unknown). -/
theorem c8_submit_validation_witness :
    (submit 100 submitDbEx (some (some 1, some "")) = (⟨400, error 5004⟩, submitDbEx)) ∧
    (submit 3 submitDbEx (some (some 1, some "hello")) = (⟨400, error 5006⟩, submitDbEx)) ∧
    (submit 100 submitDbEx (some (some 42, some "hello")) = (⟨400, error 2002⟩, submitDbEx)) :=
  ⟨(c8_submit_validation 100 submitDbEx none 1 "").2.2.2.1 rfl,
   (c8_submit_validation 3 submitDbEx none 1 "hello").2.2.2.2.1 (by decide),
   (c8_submit_validation 100 submitDbEx none 42 "hello").2.2.2.2.2
     (by decide) (by decide) rfl⟩

/-- C10: the detail handler serializes `published_date` with
`.isoformat()` and no null guard, so for a story that is approved and not
removed but has a null published date, the handler raises AttributeError
instead of producing the 200 response. -/
theorem c10_null_published_date (db : DbState) (id : Nat) (s : Story)
    (hf : findStory db id = some s) (hrem : s.is_removed = false)
    (happ : s.is_approved = true) (hpd : s.published_date = none) :
    details db id = Except.error "AttributeError" := by
  simp [details, hf, hrem, happ, hpd]

/-- C10 witness: an approved, non-removed story with a null published
date makes the detail handler raise. -/
theorem c10_null_published_date_witness :
    details noDateDbEx 4 = Except.error "AttributeError" :=
  c10_null_published_date noDateDbEx 4 noDateStoryEx rfl rfl rfl rfl

/-- The attachment pass raises KeyError whenever some fetched row's
declared parent is not among the keyed ids. -/
theorem attachAll_orphan (ids : List Nat) :
    ∀ (rows : List CommentRow) (acc : List (Nat × List Nat)),
      (∃ r ∈ rows, ∃ p, r.parent_id = some p ∧ p ∉ ids) →
      attachAll ids rows acc = Except.error "KeyError"
  | [], _, h => by simp at h
  | r :: rs, acc, h => by
    obtain ⟨r', hr', p, hp, hnp⟩ := h
    rcases List.mem_cons.mp hr' with h1 | h1
    · subst h1
      simp [attachAll, hp, hnp]
    · unfold attachAll
      match hpar : r.parent_id with
      | none => exact attachAll_orphan ids rs acc ⟨r', h1, p, hp, hnp⟩
      | some q =>
        by_cases hq : q ∈ ids
        · simp only [hq, if_pos]
          exact attachAll_orphan ids rs _ ⟨r', h1, p, hp, hnp⟩
        · simp [hq]

/-- C2 amended: for every visible story, if some fetched comment's
declared parent id is not among the fetched comments' ids, the comments
handler does not return a 200 response with the orphan dropped: the
second pass raises KeyError. -/
theorem c2_orphan_raises (db : DbState) (id : Nat) (rows : List CommentRow)
    (story : Story) (hf : findStory db id = some story)
    (hrem : story.is_removed = false) (happ : story.is_approved = true)
    (r : CommentRow) (hr : r ∈ rows) (p : Nat) (hp : r.parent_id = some p)
    (hnp : p ∉ rows.map (fun r => r.id)) :
    comments db id rows = Except.error "KeyError" := by
  have htree : commentsTree rows = Except.error "KeyError" := by
    unfold commentsTree
    rw [attachAll_orphan (rows.map (fun r => r.id)) rows _ ⟨r, hr, p, hp, hnp⟩]
  simp [comments, hf, hrem, happ, htree]

/-- C2 witness: a single fetched orphan comment (parent id 99 absent) on
the example visible story raises. -/
theorem c2_orphan_raises_witness :
    comments visibleDbEx 1 [orphanRowEx] = Except.error "KeyError" :=
  c2_orphan_raises visibleDbEx 1 [orphanRowEx] storyEx rfl rfl rfl
    orphanRowEx (by simp) 99 rfl (by decide)

/-- The database state after the like write branch, in explicit form
(both re-read outcomes leave the same state). -/
theorem likeWrite_snd (db : DbState) (story : Story) (st : Bool) (diff : Int) :
    (likeWrite db story st diff).2 =
      ⟨db.stories.map (fun s =>
          if s.id == story.id then { s with likes_count := s.likes_count + diff } else s),
        db.topics,
        db.users.map (fun u =>
          if u.id == ANONYMOUS_USER_ID then { u with likes_count := u.likes_count + diff } else u),
        ⟨ANONYMOUS_USER_ID, story.id, st, db.now⟩ :: db.story_likes,
        db.now + 1, db.nextStoryId⟩ := by
  simp only [likeWrite]
  split <;> rfl

/-- Bumping the likes counter of every story keyed `k` commutes with the
lookup of the story keyed `k`. -/
theorem find?_bumpStory (stories : List Story) (k : Nat) (diff : Int) :
    (stories.map (fun s =>
        if s.id == k then { s with likes_count := s.likes_count + diff } else s)).find?
        (fun s => s.id == k) =
      (stories.find? (fun s => s.id == k)).map
        (fun s => { s with likes_count := s.likes_count + diff }) :=
  find?_map_update (fun s => s.id)
    (fun s => { s with likes_count := s.likes_count + diff }) (fun _ => rfl) k stories

/-- Bumping the likes counter of every user keyed `k` commutes with the
lookup of the user keyed `k`. -/
theorem find?_bumpUser (users : List User) (k : Nat) (diff : Int) :
    (users.map (fun u =>
        if u.id == k then { u with likes_count := u.likes_count + diff } else u)).find?
        (fun u => u.id == k) =
      (users.find? (fun u => u.id == k)).map
        (fun u => { u with likes_count := u.likes_count + diff }) :=
  find?_map_update (fun u => u.id)
    (fun u => { u with likes_count := u.likes_count + diff }) (fun _ => rfl) k users

/-- On a visible story, when the latest event's state differs from the
requested one (or no event exists), the like handler takes the write
branch. -/
theorem likeAction_write (db : DbState) (sid : Nat) (st : Bool)
    (story : Story) (hf : findStory db sid = some story)
    (hrem : story.is_removed = false) (happ : story.is_approved = true)
    (hch : ∀ lk, latestLike db.story_likes ANONYMOUS_USER_ID sid = some lk →
      lk.state ≠ st) :
    likeAction db sid st = likeWrite db story st (if st then 1 else -1) := by
  have hid : story.id = sid := findStory_id hf
  subst hid
  rcases hl : latestLike db.story_likes ANONYMOUS_USER_ID story.id with _ | lk
  · simp [likeAction, hf, hrem, happ, hl]
  · have hne : (lk.state == st) = false := by simpa using hch lk hl
    simp [likeAction, hf, hrem, happ, hl, hne]

/-- C3 amended: every state-changing like or unlike appends exactly one
new event carrying the requested state and, in the same transaction,
adjusts the story's `likes_count` and the users-table column named
`likes_count` by +1 (like) or -1 (unlike). That column is not the
`story_likes_count` counter declared by the users model under `src/` —
the handler never touches a column of that name. -/
theorem c3_like_write_updates (db : DbState) (sid : Nat) (st : Bool)
    (story : Story) (hf : findStory db sid = some story)
    (hrem : story.is_removed = false) (happ : story.is_approved = true)
    (hch : ∀ lk, latestLike db.story_likes ANONYMOUS_USER_ID sid = some lk →
      lk.state ≠ st) :
    (likeAction db sid st).2.story_likes =
      ⟨ANONYMOUS_USER_ID, sid, st, db.now⟩ :: db.story_likes ∧
    storyLikes (likeAction db sid st).2 sid =
      (storyLikes db sid).map (fun n => n + (if st then 1 else -1)) ∧
    userLikes (likeAction db sid st).2 ANONYMOUS_USER_ID =
      (userLikes db ANONYMOUS_USER_ID).map (fun n => n + (if st then 1 else -1)) := by
  have hid : story.id = sid := findStory_id hf
  subst hid
  rw [likeAction_write db story.id st story hf hrem happ hch, likeWrite_snd]
  refine ⟨rfl, ?_, ?_⟩
  · simp only [storyLikes, findStory, find?_bumpStory]
    rw [show db.stories.find? (fun s => s.id == story.id) = some story from hf]
    rfl
  · simp only [userLikes, findUser, find?_bumpUser]
    cases db.users.find? (fun u => u.id == ANONYMOUS_USER_ID) <;> rfl

/-- C3 witness: liking the example visible story (no prior events)
appends one like event and moves both counters from 0 to 1. -/
theorem c3_like_write_updates_witness :
    (likeAction visibleDbEx 1 true).2.story_likes = [⟨5, 1, true, 0⟩] ∧
    storyLikes (likeAction visibleDbEx 1 true).2 1 = some 1 ∧
    userLikes (likeAction visibleDbEx 1 true).2 5 = some 1 := by
  have h := c3_like_write_updates visibleDbEx 1 true storyEx rfl rfl rfl
    (by intro lk hk; simp [latestLike, visibleDbEx] at hk)
  exact ⟨h.1, h.2.1, h.2.2⟩

/-- The max-by-timestamp fold keeps an accumulator at least as recent as
every remaining event. -/
theorem latestLike_keep (a : LikeEvent) :
    ∀ l : List LikeEvent, (∀ e ∈ l, e.timestamp ≤ a.timestamp) →
      List.foldl (fun acc e =>
        match acc with
        | none => some e
        | some x => if x.timestamp < e.timestamp then some e else some x) (some a) l = some a
  | [], _ => rfl
  | e :: es, h => by
    have he : ¬a.timestamp < e.timestamp :=
      not_lt.mpr (h e (List.mem_cons_self e es))
    simp only [List.foldl_cons]
    show List.foldl _ (if a.timestamp < e.timestamp then some e else some a) es = some a
    rw [if_neg he]
    exact latestLike_keep a es (fun e' he' => h e' (List.mem_cons_of_mem e he'))

/-- A newly appended event strictly more recent than every stored event is
the latest event of its user/story pair. -/
theorem latestLike_cons_latest (likes : List LikeEvent) (uid sid : Nat)
    (ev : LikeEvent) (hu : ev.user_id = uid) (hs : ev.story_id = sid)
    (h : ∀ e ∈ likes, e.timestamp ≤ ev.timestamp) :
    latestLike (ev :: likes) uid sid = some ev := by
  unfold latestLike
  rw [List.filter_cons_of_pos (by simp [hu, hs])]
  simp only [List.foldl_cons]
  show List.foldl _ (some ev) _ = some ev
  exact latestLike_keep ev _ (fun e he => h e (List.mem_of_mem_filter he))

/-- On a visible story whose latest event already carries the requested
state, the like handler re-reports that event and leaves the database
untouched. -/
theorem likeAction_noop (db : DbState) (sid : Nat) (st : Bool)
    (story : Story) (lk : LikeEvent) (hf : findStory db sid = some story)
    (hrem : story.is_removed = false) (happ : story.is_approved = true)
    (hl : latestLike db.story_likes ANONYMOUS_USER_ID sid = some lk)
    (hst : lk.state = st) :
    likeAction db sid st = (⟨201, ok (likeData lk)⟩, db) := by
  have hid : story.id = sid := findStory_id hf
  subst hid
  simp [likeAction, hf, hrem, happ, hl, hst]

/-- State facts of the write branch needed for chaining calls: the
appended event, the bumped story row, and the advanced clock. -/
theorem likeAction_write_state (db : DbState) (sid : Nat) (st : Bool)
    (story : Story) (hf : findStory db sid = some story)
    (hrem : story.is_removed = false) (happ : story.is_approved = true)
    (hch : ∀ lk, latestLike db.story_likes ANONYMOUS_USER_ID sid = some lk →
      lk.state ≠ st) :
    (likeAction db sid st).2.story_likes =
      ⟨ANONYMOUS_USER_ID, sid, st, db.now⟩ :: db.story_likes ∧
    findStory (likeAction db sid st).2 sid =
      some { story with likes_count := story.likes_count + (if st then 1 else -1) } ∧
    (likeAction db sid st).2.now = db.now + 1 := by
  have hid : story.id = sid := findStory_id hf
  subst hid
  rw [likeAction_write db story.id st story hf hrem happ hch, likeWrite_snd]
  refine ⟨rfl, ?_, rfl⟩
  show (db.stories.map _).find? _ = _
  rw [find?_bumpStory,
    show db.stories.find? (fun s => s.id == story.id) = some story from hf]
  rfl

/-- C6: like/unlike is idempotent — when the latest event for the pair
already carries the requested state, the handler re-reports it and
changes nothing — and hence, starting from a state whose latest event (if
any) is an unlike, two likes in sequence append exactly one event and
increment the story's `likes_count` exactly once, and an unlike after the
two likes brings it back to the baseline. -/
theorem c6_like_idempotent (db : DbState) (sid : Nat) (story : Story)
    (hf : findStory db sid = some story)
    (hrem : story.is_removed = false) (happ : story.is_approved = true)
    (hts : ∀ e ∈ db.story_likes, e.timestamp < db.now) :
    (∀ st lk, latestLike db.story_likes ANONYMOUS_USER_ID sid = some lk →
      lk.state = st →
      likeAction db sid st = (⟨201, ok (likeData lk)⟩, db)) ∧
    ((∀ lk, latestLike db.story_likes ANONYMOUS_USER_ID sid = some lk →
        lk.state = false) →
      storyLikes (likeAction (likeAction db sid true).2 sid true).2 sid =
        some (story.likes_count + 1) ∧
      (likeAction (likeAction db sid true).2 sid true).2.story_likes.length =
        db.story_likes.length + 1 ∧
      storyLikes (likeAction (likeAction (likeAction db sid true).2 sid true).2
          sid false).2 sid = some story.likes_count) := by
  refine ⟨fun st lk hl hst => likeAction_noop db sid st story lk hf hrem happ hl hst,
    fun hnot => ?_⟩
  have hch1 : ∀ lk, latestLike db.story_likes ANONYMOUS_USER_ID sid = some lk →
      lk.state ≠ true := by
    intro lk hl
    rw [hnot lk hl]
    decide
  obtain ⟨f2, f1, f3⟩ := likeAction_write_state db sid true story hf hrem happ hch1
  have f1' : findStory (likeAction db sid true).2 sid =
      some { story with likes_count := story.likes_count + 1 } := f1
  have flatest : latestLike (likeAction db sid true).2.story_likes
      ANONYMOUS_USER_ID sid = some ⟨ANONYMOUS_USER_ID, sid, true, db.now⟩ := by
    rw [f2]
    exact latestLike_cons_latest db.story_likes ANONYMOUS_USER_ID sid
      ⟨ANONYMOUS_USER_ID, sid, true, db.now⟩ rfl rfl
      (fun e he => le_of_lt (hts e he))
  have h2 : likeAction (likeAction db sid true).2 sid true =
      (⟨201, ok (likeData ⟨ANONYMOUS_USER_ID, sid, true, db.now⟩)⟩,
        (likeAction db sid true).2) :=
    likeAction_noop (likeAction db sid true).2 sid true
      { story with likes_count := story.likes_count + 1 }
      ⟨ANONYMOUS_USER_ID, sid, true, db.now⟩ f1' hrem happ flatest rfl
  refine ⟨?_, ?_, ?_⟩
  · rw [h2]
    simp [storyLikes, f1']
  · rw [h2, f2]
    rfl
  · have hch3 : ∀ lk, latestLike (likeAction db sid true).2.story_likes
        ANONYMOUS_USER_ID sid = some lk → lk.state ≠ false := by
      intro lk hl
      rw [flatest] at hl
      injection hl with h'
      subst h'
      simp
    obtain ⟨g2, g1, g3⟩ := likeAction_write_state (likeAction db sid true).2 sid
      false { story with likes_count := story.likes_count + 1 } f1' hrem happ hch3
    rw [h2]
    show storyLikes (likeAction (likeAction db sid true).2 sid false).2 sid =
      some story.likes_count
    simp only [storyLikes, g1]
    show some (story.likes_count + 1 + -1) = some story.likes_count
    congr 1
    omega

/-- C6 witness: on the example visible story with no prior events, two
likes then an unlike move the counter 0 → 1 → 1 → 0 and the two likes
append exactly one event. -/
theorem c6_like_idempotent_witness :
    storyLikes (likeAction (likeAction visibleDbEx 1 true).2 1 true).2 1 = some 1 ∧
    (likeAction (likeAction visibleDbEx 1 true).2 1 true).2.story_likes.length = 1 ∧
    storyLikes (likeAction (likeAction (likeAction visibleDbEx 1 true).2 1 true).2
      1 false).2 1 = some 0 := by
  have h := (c6_like_idempotent visibleDbEx 1 storyEx rfl rfl rfl
    (by intro e he; simp [visibleDbEx] at he)).2
    (by intro lk hk; simp [latestLike, visibleDbEx] at hk)
  exact ⟨h.1, h.2.1, h.2.2⟩

/-- C4 amended: every success (and error) body of the detail, comments,
latest, top, submission and like handlers is wrapped in the uniform
envelope, but the random listing is the exception the claim denies: its
200 body is the bare JSON array, not an envelope. -/
theorem c4_envelope (db : DbState) (id lim maxLen : Nat)
    (rows : List CommentRow) (pivot : Option Nat) (dir : Direction)
    (body : Option (Option Nat × Option String)) (st : Bool) :
    (∀ r, details db id = .ok r → isEnveloped r.body = true) ∧
    (∀ r, comments db id rows = .ok r → isEnveloped r.body = true) ∧
    (∀ r, latest db pivot dir lim = .ok r → isEnveloped r.body = true) ∧
    (∀ r, top db pivot dir lim = .ok r → isEnveloped r.body = true) ∧
    isEnveloped (submit maxLen db body).1.body = true ∧
    isEnveloped (likeAction db id st).1.body = true ∧
    (∀ r, random db lim = .ok r → isEnveloped r.body = false) := by
  refine ⟨fun r h => ?_, fun r h => ?_, fun r h => ?_, fun r h => ?_, ?_, ?_,
    fun r h => ?_⟩
  · unfold details at h
    repeat' split at h
    all_goals first
      | exact Except.noConfusion h
      | (injection h with h'; subst h'; (try split) <;> simp)
  · unfold comments at h
    repeat' split at h
    all_goals first
      | exact Except.noConfusion h
      | (injection h with h'; subst h'; simp)
  · unfold latest at h
    repeat' split at h
    all_goals first
      | exact Except.noConfusion h
      | (injection h with h'; subst h'; simp)
  · unfold top at h
    repeat' split at h
    all_goals first
      | exact Except.noConfusion h
      | (injection h with h'; subst h'; simp)
  · unfold submit
    repeat' split
    all_goals try simp
    all_goals (repeat' split) <;> simp
  · unfold likeAction likeWrite
    repeat' split
    all_goals try simp
    all_goals (repeat' split) <;> simp
  · unfold random at h
    repeat' split at h
    all_goals first
      | exact Except.noConfusion h
      | (injection h with h'; subst h'; simp)

/-- C4 witness: concrete instances for every hypothesis-bearing conjunct:
the detail, comments, latest and top success bodies on the example data
are enveloped, and the random body on the same data is not. -/
theorem c4_envelope_witness :
    (isEnveloped (⟨404, error 2003⟩ : Response).body = true) ∧
    (isEnveloped (⟨200, ok (.arr [])⟩ : Response).body = true) ∧
    (isEnveloped (⟨200, .arr []⟩ : Response).body = false) :=
  ⟨(c4_envelope emptyDbEx 1 25 100 [] none Direction.BEFORE none true).1
      ⟨404, error 2003⟩ rfl,
   (c4_envelope emptyDbEx 1 25 100 [] none Direction.BEFORE none true).2.2.1
      ⟨200, ok (.arr [])⟩ rfl,
   (c4_envelope emptyDbEx 1 25 100 [] none Direction.BEFORE none true).2.2.2.2.2.2
      ⟨200, .arr []⟩ rfl⟩

/-- C7: in both the latest and the top query, a present pivot with
direction BEFORE adds the filter `id > pivot` and direction AFTER adds
`id < pivot`: the WHERE clause equals the visibility filters conjoined
with exactly that comparator, every returned row satisfies it, and the
validator maps the `before` parameter to BEFORE and `after` to AFTER. -/
theorem c7_pivot_direction (db : DbState) (p lim : Nat) (s : Story)
    (l : Option Nat) :
    (feedWhere (some p) Direction.BEFORE s =
      (s.is_approved && !s.is_removed && decide (s.id > p))) ∧
    (feedWhere (some p) Direction.AFTER s =
      (s.is_approved && !s.is_removed && decide (s.id < p))) ∧
    (s ∈ latestQuery db (some p) Direction.BEFORE lim → s.id > p) ∧
    (s ∈ latestQuery db (some p) Direction.AFTER lim → s.id < p) ∧
    (s ∈ topQuery db (some p) Direction.BEFORE lim → s.id > p) ∧
    (s ∈ topQuery db (some p) Direction.AFTER lim → s.id < p) ∧
    (validateListing (some p) none l =
      (validateLimit l).map (fun n => (some p, n, Direction.BEFORE))) ∧
    (validateListing none (some p) l =
      (validateLimit l).map (fun n => (some p, n, Direction.AFTER))) := by
  refine ⟨rfl, rfl, fun h => ?_, fun h => ?_, fun h => ?_, fun h => ?_, rfl, rfl⟩
  all_goals
    have hf := List.of_mem_filter ((mem_sortLe _ _ _).1 (List.take_subset _ _ h))
    simp [feedWhere] at hf
    omega

/-- C7 witness: the visible story with id 7 is returned by both feeds
with pivot 3/BEFORE and pivot 9/AFTER, and indeed 7 > 3 and 7 < 9. -/
theorem c7_pivot_direction_witness :
    feedStoryEx.id > 3 ∧ feedStoryEx.id < 9 ∧
    feedStoryEx.id > 3 ∧ feedStoryEx.id < 9 :=
  ⟨(c7_pivot_direction feedDbEx 3 25 feedStoryEx none).2.2.1 (by decide),
   (c7_pivot_direction feedDbEx 9 25 feedStoryEx none).2.2.2.1 (by decide),
   (c7_pivot_direction feedDbEx 3 25 feedStoryEx none).2.2.2.2.1 (by decide),
   (c7_pivot_direction feedDbEx 9 25 feedStoryEx none).2.2.2.2.2.1 (by decide)⟩

/-- Looking up a key after the append-to-parent mutation step: only the
entry keyed by the parent gains the child. -/
theorem lookupChildren_appendChild (p c a : Nat) :
    ∀ acc : List (Nat × List Nat),
      lookupChildren (appendChild acc p c) a =
        if a = p then (lookupChildren acc a).map (fun l => l ++ [c])
        else lookupChildren acc a
  | [] => by
    by_cases h : a = p <;> simp [appendChild, lookupChildren, h]
  | (k, v) :: rest => by
    by_cases hk : k = p
    · subst hk
      rw [show appendChild ((k, v) :: rest) k c = (k, v ++ [c]) :: appendChild rest k c
        from by simp [appendChild]]
      by_cases ha : a = k
      · subst ha
        simp [lookupChildren]
      · simp [lookupChildren, ha, lookupChildren_appendChild k c a rest]
    · rw [show appendChild ((k, v) :: rest) p c = (k, v) :: appendChild rest p c
        from by simp [appendChild, hk]]
      by_cases ha : a = k
      · subst ha
        simp [lookupChildren, hk]
      · simp [lookupChildren, hk, ha, lookupChildren_appendChild p c a rest]

/-- Invariant of the attachment pass: when every parent reference is
among the keyed ids, the pass succeeds and the child list of each key `a`
grows by exactly the ids of the rows declaring parent `a`, in iteration
order. -/
theorem attachAll_ok_lookup (ids : List Nat) :
    ∀ (rows : List CommentRow) (acc : List (Nat × List Nat)),
      (∀ r ∈ rows, ∀ q, r.parent_id = some q → q ∈ ids) →
      ∃ m, attachAll ids rows acc = Except.ok m ∧
        ∀ a, lookupChildren m a =
          (lookupChildren acc a).map
            (fun l => l ++ (rows.filter (fun r => r.parent_id == some a)).map
              (fun r => r.id))
  | [], acc, _ =>
    ⟨acc, rfl, fun a => by cases h : lookupChildren acc a <;> simp [h]⟩
  | r :: rs, acc, h => by
    have hrs : ∀ r' ∈ rs, ∀ q, r'.parent_id = some q → q ∈ ids :=
      fun r' hm q hq => h r' (List.mem_cons_of_mem r hm) q hq
    match hpar : r.parent_id with
    | none =>
      obtain ⟨m, hm, hl⟩ := attachAll_ok_lookup ids rs acc hrs
      refine ⟨m, by simp [attachAll, hpar, hm], fun a => ?_⟩
      rw [hl a, List.filter_cons_of_neg (by simp [hpar])]
    | some q =>
      have hq : q ∈ ids := h r (List.mem_cons_self r rs) q hpar
      obtain ⟨m, hm, hl⟩ :=
        attachAll_ok_lookup ids rs (appendChild acc q r.id) hrs
      refine ⟨m, by simp [attachAll, hpar, hq, hm], fun a => ?_⟩
      rw [hl a, lookupChildren_appendChild]
      by_cases ha : a = q
      · subst ha
        rw [if_pos rfl, List.filter_cons_of_pos (by simp [hpar])]
        cases lookupChildren acc a <;> simp
      · rw [if_neg ha,
          List.filter_cons_of_neg (by simp [hpar, Ne.symm ha])]

/-- In the initial OrderedDict every fetched id is keyed to an empty
child list. -/
theorem lookupChildren_init (a : Nat) :
    ∀ rows : List CommentRow, a ∈ rows.map (fun r => r.id) →
      lookupChildren (rows.map (fun r => (r.id, []))) a = some []
  | [], h => by simp at h
  | r :: rs, h => by
    by_cases ha : a = r.id
    · simp [lookupChildren, ha]
    · have hm : a ∈ rs.map (fun r => r.id) := by
        rcases List.mem_cons.mp h with h1 | h1
        · exact absurd h1 ha
        · exact h1
      simp [lookupChildren, ha, lookupChildren_init a rs hm]

/-- C9: for every fetched comment set with distinct ids and all parents
present, the tree pass succeeds; a comment B whose parent is comment A of
the set ends up in A's child list — which is exactly the fetched
(like-count-descending) sequence of the rows declaring parent A — and the
root level is exactly the rows with a null parent, so B is not among
them. -/
theorem c9_comment_tree (rows : List CommentRow) (A B : CommentRow)
    (hnodup : (rows.map (fun r => r.id)).Nodup)
    (hclosed : ∀ r ∈ rows, ∀ q, r.parent_id = some q →
      q ∈ rows.map (fun r => r.id))
    (hA : A ∈ rows) (hB : B ∈ rows) (hBA : B.parent_id = some A.id) :
    ∃ m, commentsTree rows =
        Except.ok ((rows.filter (fun r => r.parent_id == none)).map
          (fun r => r.id), m) ∧
      lookupChildren m A.id =
        some ((rows.filter (fun r => r.parent_id == some A.id)).map
          (fun r => r.id)) ∧
      B.id ∈ (rows.filter (fun r => r.parent_id == some A.id)).map
        (fun r => r.id) ∧
      B.id ∉ (rows.filter (fun r => r.parent_id == none)).map
        (fun r => r.id) := by
  obtain ⟨m, hm, hl⟩ := attachAll_ok_lookup (rows.map (fun r => r.id)) rows
    (rows.map (fun r => (r.id, []))) hclosed
  refine ⟨m, ?_, ?_, ?_, ?_⟩
  · unfold commentsTree
    rw [hm]
  · rw [hl A.id, lookupChildren_init A.id rows (List.mem_map_of_mem _ hA)]
    simp
  · exact List.mem_map_of_mem _ (List.mem_filter.mpr ⟨hB, by simp [hBA]⟩)
  · intro hmem
    obtain ⟨r, hrf, hrid⟩ := List.mem_map.mp hmem
    obtain ⟨hrmem, hrcond⟩ := List.mem_filter.mp hrf
    have hrnone : r.parent_id = none := by simpa using hrcond
    have hrB : r = B := List.inj_on_of_nodup_map hnodup hrmem hB hrid
    rw [hrB, hBA] at hrnone
    exact Option.noConfusion hrnone

/-- C9 witness: the example set of one root (id 1) and two children (ids
2 and 3, both declaring parent 1, in like-count-descending order). -/
theorem c9_comment_tree_witness :
    ∃ m, commentsTree c9RowsEx =
        Except.ok ((c9RowsEx.filter (fun r => r.parent_id == none)).map
          (fun r => r.id), m) ∧
      lookupChildren m rootRowEx.id =
        some ((c9RowsEx.filter (fun r => r.parent_id == some rootRowEx.id)).map
          (fun r => r.id)) ∧
      childRowEx.id ∈ (c9RowsEx.filter (fun r => r.parent_id == some rootRowEx.id)).map
        (fun r => r.id) ∧
      childRowEx.id ∉ (c9RowsEx.filter (fun r => r.parent_id == none)).map
        (fun r => r.id) :=
  c9_comment_tree c9RowsEx rootRowEx childRowEx (by decide)
    (by
      intro r hr q hq
      simp only [c9RowsEx] at hr
      fin_cases hr <;>
        simp_all [c9RowsEx, rootRowEx, childRowEx, childRowEx2])
    (by simp [c9RowsEx]) (by simp [c9RowsEx]) rfl

end TheBestory
